import Mathlib

/-!
Verification of the notebook `03_BuildModel.ipynb` from
`Patient-Mortality-Detection-Using-DeepLearning`.

The notebook is a straight-line script: it loads four NumPy arrays,
builds a Keras model `Input -> Masking(0) -> LSTM(128, return_sequences)
-> TimeDistributed(Dense(1, sigmoid))`, fits it for 5 epochs with batch
size 128, predicts on the validation set, computes three ROC/AUC pairs
(RNN predictions unnegated, PIM2 and PRISM3 columns negated), and renders
two matplotlib figures.

We embed the notebook at two levels:
 * a numeric model of the network's forward pass (inference mode, so the
   dropout settings are inactive), over the reals;
 * a structural model of the script as a list of steps in cell order,
   with an execution semantics in which a missing input file aborts the
   run (there is no exception handling anywhere in the notebook).
-/

namespace PatientMortality

/-! ### Numeric model of the network's forward pass -/

/-- Dot product of two real vectors (trailing entries of the longer one
are ignored, matching rectangular tensors where lengths agree). -/
def dot (v w : List ℝ) : ℝ := ((v.zip w).map (fun p => p.1 * p.2)).sum

/-- A weight matrix applied to a vector: one dot product per row. -/
def matVec (m : List (List ℝ)) (v : List ℝ) : List ℝ := m.map (fun row => dot row v)

/-- The logistic sigmoid, the activation of the output layer and of the
LSTM gates. -/
noncomputable def sigmoid (x : ℝ) : ℝ := 1 / (1 + Real.exp (-x))

/-- Weights of one LSTM layer: input kernels `W*`, recurrent kernels
`U*` and biases `b*` for the input, forget, cell and output gates. -/
structure LSTMWeights where
  Wi : List (List ℝ)
  Ui : List (List ℝ)
  bi : List ℝ
  Wf : List (List ℝ)
  Uf : List (List ℝ)
  bf : List ℝ
  Wc : List (List ℝ)
  Uc : List (List ℝ)
  bc : List ℝ
  Wo : List (List ℝ)
  Uo : List (List ℝ)
  bo : List ℝ

/-- Pointwise combination of two vectors. -/
def zipW (f : ℝ → ℝ → ℝ) (v w : List ℝ) : List ℝ := (v.zip w).map (fun p => f p.1 p.2)

/-- One gate: `act (W x + U h + b)` applied pointwise. -/
noncomputable def gate (act : ℝ → ℝ) (W U : List (List ℝ)) (b x h : List ℝ) : List ℝ :=
  (zipW (· + ·) (zipW (· + ·) (matVec W x) (matVec U h)) b).map act

/-- One step of the standard LSTM cell (Keras equations, inference mode):
`i, f, o` are sigmoid gates, `g` the tanh candidate,
`c' = f*c + i*g`, `h' = o * tanh c'`. -/
noncomputable def lstmCell (P : LSTMWeights) (h c x : List ℝ) : List ℝ × List ℝ :=
  let i := gate sigmoid P.Wi P.Ui P.bi x h
  let f := gate sigmoid P.Wf P.Uf P.bf x h
  let g := gate Real.tanh P.Wc P.Uc P.bc x h
  let o := gate sigmoid P.Wo P.Uo P.bo x h
  let c' := zipW (· + ·) (zipW (· * ·) f c) (zipW (· * ·) i g)
  (zipW (· * ·) o (c'.map Real.tanh), c')

/-- A timestep is masked by `Masking(0)` when every feature equals the
mask value `0`. -/
def maskedStep (x : List ℝ) : Prop := ∀ v ∈ x, v = 0

noncomputable instance : DecidablePred maskedStep := fun x => Classical.propDecidable (maskedStep x)

/-- Run the masked LSTM over a sequence with `return_sequences=True`: one
hidden vector is emitted per input timestep; a masked timestep leaves the
state unchanged and re-emits the current hidden state. -/
noncomputable def lstmSeq (P : LSTMWeights) (h c : List ℝ) : List (List ℝ) → List (List ℝ)
  | [] => []
  | x :: rest =>
    if maskedStep x then
      h :: lstmSeq P h c rest
    else
      let s := lstmCell P h c x
      s.1 :: lstmSeq P s.1 s.2 rest

/-- All parameters of the model: the LSTM layer (128 units in the
notebook) and the `TimeDistributed(Dense(1, activation=sigmoid))` output
layer with kernel `w` and bias `b`. -/
structure ModelParams where
  lstm : LSTMWeights
  h0 : List ℝ
  c0 : List ℝ
  w : List ℝ
  b : ℝ

/-- The forward pass of `model` on one encounter `xs` (a list of
timesteps, each a feature vector): the LSTM output sequence fed through
the time-distributed sigmoid unit, producing one probability per
timestep. -/
noncomputable def modelPredict (P : ModelParams) (xs : List (List ℝ)) : List ℝ :=
  (lstmSeq P.lstm P.h0 P.c0 xs).map (fun h => sigmoid (dot P.w h + P.b))

/-- `model.predict(X_valid)`: the forward pass applied to every
encounter of the batch. -/
noncomputable def batchPredict (P : ModelParams) (X : List (List (List ℝ))) :
    List (List ℝ) :=
  X.map (modelPredict P)

/-- Zero parameters, used to instantiate universally quantified theorems
at a concrete model. -/
def zeroParams : ModelParams :=
  { lstm := ⟨[], [], [], [], [], [], [], [], [], [], [], []⟩
    h0 := [], c0 := [], w := [], b := 0 }

lemma sigmoid_nonneg (x : ℝ) : 0 ≤ sigmoid x := by
  unfold sigmoid
  positivity

lemma sigmoid_le_one (x : ℝ) : sigmoid x ≤ 1 := by
  unfold sigmoid
  rw [div_le_one (by positivity)]
  have := Real.exp_pos (-x)
  linarith

lemma lstmSeq_length (P : LSTMWeights) (h c : List ℝ) (xs : List (List ℝ)) :
    (lstmSeq P h c xs).length = xs.length := by
  induction xs generalizing h c with
  | nil => simp [lstmSeq]
  | cons x rest ih =>
    by_cases hm : maskedStep x
    · simp [lstmSeq, hm, ih]
    · simp [lstmSeq, hm, ih]

lemma modelPredict_length (P : ModelParams) (xs : List (List ℝ)) :
    (modelPredict P xs).length = xs.length := by
  simp [modelPredict, lstmSeq_length]

lemma modelPredict_mem_bounds (P : ModelParams) (xs : List (List ℝ)) :
    ∀ p ∈ modelPredict P xs, 0 ≤ p ∧ p ≤ 1 := by
  intro p hp
  simp only [modelPredict, List.mem_map] at hp
  obtain ⟨h, -, rfl⟩ := hp
  exact ⟨sigmoid_nonneg _, sigmoid_le_one _⟩

/-! ### The architecture, as built by the model-construction cell -/

/-- A symbolic description of one Keras layer, with the hyper-parameters
the notebook sets. -/
inductive Layer where
  | input (timesteps : Option Nat) (features : Nat)
  | masking (maskValue : ℚ)
  | lstm (units : Nat) (dropout recurrentDropout : ℚ) (returnSequences : Bool)
  | timeDistributedDense (units : Nat) (activation : String)
deriving DecidableEq

/-- The model-construction cell: `x = Input((None, X_train.shape[-1]))`,
`mask = Masking(0)(x)`, `lstm1 = LSTM(128, dropout=0.25,
recurrent_dropout=0.1, return_sequences=True)(mask)`,
`output = TimeDistributed(Dense(1, activation=sigmoid))(lstm1)`.
The only input-dependent quantity is the feature dimension
`featureDim = X_train.shape[-1]`. -/
def buildModelArch (featureDim : Nat) : List Layer :=
  [ Layer.input none featureDim,
    Layer.masking 0,
    Layer.lstm 128 (1/4) (1/10) true,
    Layer.timeDistributedDense 1 "sigmoid" ]

/-- `true` on LSTM layers. -/
def Layer.isLstm : Layer → Bool
  | Layer.lstm _ _ _ _ => true
  | _ => false

/-- `true` on time-distributed dense layers. -/
def Layer.isTDDense : Layer → Bool
  | Layer.timeDistributedDense _ _ => true
  | _ => false

/-! ### Structural model of the script -/

/-- A two-panel figure description (made with `plt.subplots(2, 1)` or
`plt.figure`): how many panels, how many curves are overlaid, whether
the legend labels carry AUC values, and whether it plots one randomly
chosen encounter. -/
structure Figure where
  panels : Nat
  curves : Nat
  legendShowsAuc : Bool
  randomEncounter : Bool
deriving DecidableEq

/-- One step of the straight-line notebook.  Each constructor is a bare
library call; the language has no construct for exception handling,
retries or loops. -/
inductive Step where
  | importLibs
  | setPaths
  | npLoad (target file : String)
  | buildModel
  | compileModel (optimizer loss : String)
  | showSummary
  | fit (x y : String) (batchSize epochs : Nat)
  | predict (target x : String)
  | showShape
  | renderFigure (fig : Figure)
  | readCsv (target file : String)
  | rocCurve (target labels scores : String) (negated : Bool)
  | aucOf (target roc : String)
deriving DecidableEq

/-- The notebook's code cells, in execution order. -/
def notebook : List Step :=
  [ Step.importLibs,
    Step.setPaths,
    Step.npLoad "X_train" "X_train_prepared.npy",
    Step.npLoad "y_train" "y_train_prepared.npy",
    Step.npLoad "X_valid" "X_valid_prepared.npy",
    Step.npLoad "y_valid" "y_valid_prepared.npy",
    Step.buildModel,
    Step.compileModel "RMSprop" "binary_crossentropy",
    Step.showSummary,
    Step.fit "X_train" "y_train" 128 5,
    Step.predict "preds" "X_valid",
    Step.showShape,
    Step.renderFigure ⟨2, 1, false, true⟩,
    Step.rocCurve "rnn_roc" "label" "prediction" false,
    Step.aucOf "rnn_auc" "rnn_roc",
    Step.readCsv "index" "pim2prism3.csv",
    Step.rocCurve "pim2_roc" "mortrep" "PIM2" true,
    Step.rocCurve "prism3_roc" "mortrep" "PRISM3" true,
    Step.aucOf "pim2_auc" "pim2_roc",
    Step.aucOf "prism3_auc" "prism3_roc",
    Step.renderFigure ⟨1, 3, true, false⟩ ]

/-- `true` on `np.load` steps. -/
def Step.isNpLoad : Step → Bool
  | Step.npLoad _ _ => true
  | _ => false

/-- `true` on `roc_curve` steps. -/
def Step.isRocCurve : Step → Bool
  | Step.rocCurve _ _ _ _ => true
  | _ => false

/-- `true` on `auc` steps. -/
def Step.isAuc : Step → Bool
  | Step.aucOf _ _ => true
  | _ => false

/-- `true` on `model.fit` steps. -/
def Step.isFit : Step → Bool
  | Step.fit _ _ _ _ => true
  | _ => false

/-- `true` on `model.predict` steps. -/
def Step.isPredict : Step → Bool
  | Step.predict _ _ => true
  | _ => false

/-- `true` on figure-rendering steps. -/
def Step.isRenderFigure : Step → Bool
  | Step.renderFigure _ => true
  | _ => false

/-- The input file a step reads from disk, if any. -/
def Step.requiredFile : Step → Option String
  | Step.npLoad _ f => some f
  | Step.readCsv _ f => some f
  | _ => none

/-- The filesystem visible to the script. -/
structure Env where
  files : List String
deriving DecidableEq

/-- Run the script: each step is a bare library call, so a step whose
input file is missing raises an exception that no surrounding code
catches; execution stops there with an error naming the file, with no
retry and no recovery, and no later step runs.  On success the number
of executed steps is returned. -/
def runSteps (env : Env) : List Step → Except String Nat
  | [] => Except.ok 0
  | s :: rest =>
    match s.requiredFile with
    | some f =>
      if f ∈ env.files then (runSteps env rest).map (· + 1) else Except.error f
    | none => (runSteps env rest).map (· + 1)

/-- The first step whose input file is missing, described by that file. -/
def firstMissing (env : Env) (steps : List Step) : Option String :=
  steps.findSome? (fun s =>
    match s.requiredFile with
    | some f => if f ∈ env.files then none else some f
    | none => none)

lemma firstMissing_cons (env : Env) (s : Step) (rest : List Step) :
    firstMissing env (s :: rest) =
      match s.requiredFile with
      | some f => if f ∈ env.files then firstMissing env rest else some f
      | none => firstMissing env rest := by
  simp only [firstMissing, List.findSome?_cons]
  cases hf : s.requiredFile with
  | none => rfl
  | some f => by_cases hmem : f ∈ env.files <;> simp [hmem, firstMissing]

lemma runSteps_eq (env : Env) (steps : List Step) :
    runSteps env steps =
      match firstMissing env steps with
      | some f => Except.error f
      | none => Except.ok steps.length := by
  induction steps with
  | nil => rfl
  | cons s rest ih =>
    cases hf : s.requiredFile with
    | none =>
      rw [firstMissing_cons, hf]
      simp only [runSteps, hf, ih]
      cases hm : firstMissing env rest <;> simp [Except.map]
    | some f =>
      by_cases hmem : f ∈ env.files
      · rw [firstMissing_cons, hf]
        simp only [runSteps, hf, if_pos hmem, ih]
        cases hm : firstMissing env rest <;> simp [Except.map]
      · rw [firstMissing_cons, hf]
        simp [runSteps, hf, hmem]

/-! ### ROC inputs for the RNN (cell `3.5`, first code cell)

`y_valid` and `preds` both have shape `(encounters, timesteps, 1)`; after
`squeeze` each encounter is a sequence of scalars.  The cell takes
`label = y_valid[:, 0, :].squeeze()` (first timestep) and
`prediction = preds[:, -1, :].squeeze()` (last timestep) and feeds the
pair to `roc_curve`.  Indexing a length-zero time axis raises an
`IndexError`, modelled by `none`. -/

/-- `y_valid[:, 0, :]`: the first timestep of every encounter; fails when
an encounter's time axis is empty. -/
def firstTimesteps : List (List ℚ) → Option (List ℚ)
  | [] => some []
  | e :: rest =>
    match e.head?, firstTimesteps rest with
    | some a, some L => some (a :: L)
    | _, _ => none

/-- `preds[:, -1, :]`: the last timestep of every encounter; fails when
an encounter's time axis is empty. -/
def lastTimesteps : List (List ℚ) → Option (List ℚ)
  | [] => some []
  | e :: rest =>
    match e.getLast?, lastTimesteps rest with
    | some a, some L => some (a :: L)
    | _, _ => none

/-- The `(label, score)` pairs given to `roc_curve(label, prediction)`
for the RNN: first-timestep labels paired with last-timestep
predictions. -/
def rnnRocInput (y preds : List (List ℚ)) : Option (List (ℚ × ℚ)) :=
  match firstTimesteps y, lastTimesteps preds with
  | some L, some P => some (L.zip P)
  | _, _ => none

/-! ### Baseline scores (cell `3.5`, second code cell) -/

/-- One row of `pim2prism3.csv`. -/
structure CsvRow where
  mortalityResponse : ℚ
  PIM2 : ℚ
  PRISM3 : ℚ
deriving DecidableEq

/-- The score vector `-index['PIM2']` passed to `roc_curve` for PIM2. -/
def pim2Scores (rows : List CsvRow) : List ℚ :=
  rows.map (fun r => -r.PIM2)

/-- The score vector `-index['PRISM3']` passed to `roc_curve` for
PRISM3. -/
def prism3Scores (rows : List CsvRow) : List ℚ :=
  rows.map (fun r => -r.PRISM3)

/-- The score vector for the RNN is `prediction` itself, with no
negation applied. -/
def rnnScores (prediction : List ℚ) : List ℚ :=
  prediction

/-! ### Helper lemmas -/

lemma head?_eq_some_headI (e : List ℚ) (h : e ≠ []) :
    e.head? = some e.headI := by
  cases e with
  | nil => exact absurd rfl h
  | cons a t => rfl

lemma getLast?_eq_some_getLastI (e : List ℚ) (h : e ≠ []) :
    e.getLast? = some e.getLastI := by
  rw [List.getLastI_eq_getLast?]
  cases he : e.getLast? with
  | none => exact absurd (List.getLast?_eq_none_iff.mp he) h
  | some a => rfl

lemma firstTimesteps_eq_some (y : List (List ℚ)) (h : ∀ e ∈ y, e ≠ []) :
    firstTimesteps y = some (y.map List.headI) := by
  induction y with
  | nil => rfl
  | cons e rest ih =>
    have he : e ≠ [] := h e (List.mem_cons_self e rest)
    have hrest : ∀ x ∈ rest, x ≠ [] := fun x hx => h x (List.mem_cons_of_mem e hx)
    simp [firstTimesteps, head?_eq_some_headI e he, ih hrest]

lemma lastTimesteps_eq_some (preds : List (List ℚ)) (h : ∀ e ∈ preds, e ≠ []) :
    lastTimesteps preds = some (preds.map List.getLastI) := by
  induction preds with
  | nil => rfl
  | cons e rest ih =>
    have he : e ≠ [] := h e (List.mem_cons_self e rest)
    have hrest : ∀ x ∈ rest, x ≠ [] := fun x hx => h x (List.mem_cons_of_mem e hx)
    simp [lastTimesteps, getLast?_eq_some_getLastI e he, ih hrest]

lemma firstTimesteps_eq_none (y : List (List ℚ)) (h : ∃ e ∈ y, e = []) :
    firstTimesteps y = none := by
  induction y with
  | nil => simp at h
  | cons e rest ih =>
    rcases h with ⟨x, hx, hxnil⟩
    rcases List.mem_cons.mp hx with rfl | hxr
    · simp [hxnil, firstTimesteps]
    · have := ih ⟨x, hxr, hxnil⟩
      simp only [firstTimesteps, this]
      cases e.head? <;> rfl

lemma lastTimesteps_eq_none (preds : List (List ℚ)) (h : ∃ e ∈ preds, e = []) :
    lastTimesteps preds = none := by
  induction preds with
  | nil => simp at h
  | cons e rest ih =>
    rcases h with ⟨x, hx, hxnil⟩
    rcases List.mem_cons.mp hx with rfl | hxr
    · simp [hxnil, lastTimesteps]
    · have := ih ⟨x, hxr, hxnil⟩
      simp only [lastTimesteps, this]
      cases e.getLast? <;> rfl

lemma pim2Scores_length (rows : List CsvRow) :
    (pim2Scores rows).length = rows.length := by
  simp [pim2Scores]

lemma prism3Scores_length (rows : List CsvRow) :
    (prism3Scores rows).length = rows.length := by
  simp [prism3Scores]

lemma rnnScores_length (prediction : List ℚ) :
    (rnnScores prediction).length = prediction.length := rfl

/-- Whether a `roc_curve` step negates its score column. -/
def Step.negatedScores : Step → Bool
  | Step.rocCurve _ _ _ n => n
  | _ => false

/-! ### The claims -/

/-- C1: for every input encounter sequence the trained network produces
one mortality-probability prediction per timestep (`return_sequences`
with a time-distributed sigmoid output of width 1), and every predicted
value lies in the closed interval `[0, 1]`. -/
theorem C1_one_probability_per_timestep (P : ModelParams) (xs : List (List ℝ)) :
    (modelPredict P xs).length = xs.length ∧
    ∀ p ∈ modelPredict P xs, 0 ≤ p ∧ p ≤ 1 :=
  ⟨modelPredict_length P xs, modelPredict_mem_bounds P xs⟩

/-- Witness for C1 at the zero model on a one-timestep encounter. -/
theorem C1_one_probability_per_timestep_witness :
    (modelPredict zeroParams [[(0:ℝ)]]).length = [[(0:ℝ)]].length ∧
    (0 ≤ sigmoid 0 ∧ sigmoid 0 ≤ 1) := by
  have hm : maskedStep [(0:ℝ)] := by intro v hv; simpa using hv
  have hmem : sigmoid 0 ∈ modelPredict zeroParams [[(0:ℝ)]] := by
    simp [modelPredict, lstmSeq, hm, zeroParams, dot]
  exact ⟨(C1_one_probability_per_timestep zeroParams [[(0:ℝ)]]).1,
    (C1_one_probability_per_timestep zeroParams [[(0:ℝ)]]).2 (sigmoid 0) hmem⟩

/-- C2: the script computes an ROC curve and AUC for the RNN's
validation predictions and, separately, for both clinical severity
scores PIM2 and PRISM3 read from the CSV file: exactly three
`roc_curve` calls and exactly three `auc` calls. -/
theorem C2_three_roc_auc_pairs :
    notebook.filter Step.isRocCurve =
      [Step.rocCurve "rnn_roc" "label" "prediction" false,
       Step.rocCurve "pim2_roc" "mortrep" "PIM2" true,
       Step.rocCurve "prism3_roc" "mortrep" "PRISM3" true] ∧
    notebook.filter Step.isAuc =
      [Step.aucOf "rnn_auc" "rnn_roc",
       Step.aucOf "pim2_auc" "pim2_roc",
       Step.aucOf "prism3_auc" "prism3_roc"] ∧
    (notebook.filter Step.isRocCurve).length = 3 ∧
    (notebook.filter Step.isAuc).length = 3 :=
  ⟨rfl, rfl, rfl, rfl⟩

/-- C3: construction always yields exactly one LSTM layer (128 units)
followed by one time-distributed dense sigmoid layer; beyond the feature
dimension of `X_train` nothing about the architecture depends on the
input data. -/
theorem C3_fixed_two_layer (d d' : Nat) :
    (buildModelArch d).filter Layer.isLstm =
      [Layer.lstm 128 (1/4) (1/10) true] ∧
    (buildModelArch d).filter Layer.isTDDense =
      [Layer.timeDistributedDense 1 "sigmoid"] ∧
    (buildModelArch d).tail =
      [Layer.masking 0, Layer.lstm 128 (1/4) (1/10) true,
       Layer.timeDistributedDense 1 "sigmoid"] ∧
    (buildModelArch d).tail = (buildModelArch d').tail :=
  ⟨rfl, rfl, rfl, rfl⟩

/-- Witness for C3 at the notebook's actual feature dimension 265. -/
theorem C3_fixed_two_layer_witness :
    (buildModelArch 265).filter Layer.isLstm =
      [Layer.lstm 128 (1/4) (1/10) true] ∧
    (buildModelArch 265).filter Layer.isTDDense =
      [Layer.timeDistributedDense 1 "sigmoid"] ∧
    (buildModelArch 265).tail =
      [Layer.masking 0, Layer.lstm 128 (1/4) (1/10) true,
       Layer.timeDistributedDense 1 "sigmoid"] ∧
    (buildModelArch 265).tail = (buildModelArch 128).tail :=
  C3_fixed_two_layer 265 128

/-- C4: the script loads exactly four arrays from disk, from the fixed
file names `X_train_prepared.npy`, `y_train_prepared.npy`,
`X_valid_prepared.npy` and `y_valid_prepared.npy`, all before model
construction, and performs no other `np.load` anywhere. -/
theorem C4_loads_four_arrays :
    notebook.filter Step.isNpLoad =
      [Step.npLoad "X_train" "X_train_prepared.npy",
       Step.npLoad "y_train" "y_train_prepared.npy",
       Step.npLoad "X_valid" "X_valid_prepared.npy",
       Step.npLoad "y_valid" "y_valid_prepared.npy"] ∧
    (notebook.dropWhile (fun s => !(s == Step.buildModel))).filter
        Step.isNpLoad = [] :=
  ⟨rfl, rfl⟩

/-- C5: training is one single `model.fit` call with batch size 128 and
5 epochs; no other fit step exists, and the step language itself has no
loop construct that could surround it. -/
theorem C5_single_fit_five_epochs :
    notebook.filter Step.isFit = [Step.fit "X_train" "y_train" 128 5] ∧
    (notebook.filter Step.isFit).length = 1 :=
  ⟨rfl, rfl⟩

/-- C6: inference is one single `model.predict` call, on `X_valid` only,
and the prediction batch has exactly one entry per validation
encounter. -/
theorem C6_single_predict_on_validation (P : ModelParams)
    (Xv : List (List (List ℝ))) :
    notebook.filter Step.isPredict = [Step.predict "preds" "X_valid"] ∧
    (batchPredict P Xv).length = Xv.length :=
  ⟨rfl, by simp [batchPredict]⟩

/-- Witness for C6 at the zero model on a one-encounter batch. -/
theorem C6_single_predict_on_validation_witness :
    notebook.filter Step.isPredict = [Step.predict "preds" "X_valid"] ∧
    (batchPredict zeroParams [[[(0:ℝ)]]]).length = [[[(0:ℝ)]]].length :=
  C6_single_predict_on_validation zeroParams [[[(0:ℝ)]]]

/-- C7: exactly two figures are rendered: a two-panel figure for one
randomly chosen encounter, and a single-panel figure overlaying three
ROC curves with AUC values in the legend. -/
theorem C7_two_figures :
    notebook.filter Step.isRenderFigure =
      [Step.renderFigure ⟨2, 1, false, true⟩,
       Step.renderFigure ⟨1, 3, true, false⟩] ∧
    (notebook.filter Step.isRenderFigure).length = 2 :=
  ⟨rfl, rfl⟩

/-- C8: no step defines error handling or retry behaviour: when the
first missing input file is hit, the run aborts with that file's error
and no recovery happens; the run only succeeds when no required file is
missing, in which case every step executes. -/
theorem C8_uncaught_failure_aborts (env : Env) :
    (∀ f, firstMissing env notebook = some f →
      runSteps env notebook = Except.error f) ∧
    (firstMissing env notebook = none →
      runSteps env notebook = Except.ok notebook.length) := by
  refine ⟨fun f hf => ?_, fun hf => ?_⟩
  · rw [runSteps_eq, hf]
  · rw [runSteps_eq, hf]

/-- Witness for C8: on an empty filesystem, the run aborts at the very
first `np.load`, with the missing-file error. -/
theorem C8_uncaught_failure_aborts_witness :
    firstMissing ⟨[]⟩ notebook = some "X_train_prepared.npy" ∧
    runSteps ⟨[]⟩ notebook = Except.error "X_train_prepared.npy" :=
  ⟨rfl, (C8_uncaught_failure_aborts ⟨[]⟩).1 "X_train_prepared.npy" rfl⟩

/-- C9: the ROC input for the RNN pairs the label from the first
timestep of `y_valid` with the prediction from the last timestep of
`preds`; when some encounter has an empty time axis the indexing fails
(an `IndexError`, modelled by `none`). -/
theorem C9_first_label_last_prediction (y preds : List (List ℚ)) :
    ((∀ e ∈ y, e ≠ []) → (∀ e ∈ preds, e ≠ []) →
      rnnRocInput y preds =
        some ((y.map List.headI).zip (preds.map List.getLastI))) ∧
    ((∃ e ∈ y, e = []) → rnnRocInput y preds = none) ∧
    ((∃ e ∈ preds, e = []) → rnnRocInput y preds = none) := by
  refine ⟨fun hy hp => ?_, fun hy => ?_, fun hp => ?_⟩
  · simp [rnnRocInput, firstTimesteps_eq_some y hy, lastTimesteps_eq_some preds hp]
  · simp [rnnRocInput, firstTimesteps_eq_none y hy]
  · have hlt := lastTimesteps_eq_none preds hp
    cases hft : firstTimesteps y <;> simp [rnnRocInput, hft, hlt]

/-- Witness for C9: a one-encounter validation set with two timesteps:
the label is the first entry, the score the last. -/
theorem C9_first_label_last_prediction_witness :
    rnnRocInput [[(1:ℚ), 0]] [[(1:ℚ)/2, 3/4]] = some [(1, 3/4)] := by
  have h := (C9_first_label_last_prediction [[(1:ℚ), 0]] [[(1:ℚ)/2, 3/4]]).1
    (by simp) (by simp)
  rw [h]
  rfl

/-- C10: the ROC curves for the baselines are computed on the negated
score columns `-PIM2` and `-PRISM3`, so a higher raw score is ranked as
a lower predicted-positive score, whereas the RNN's prediction is passed
unnegated, preserving its order. -/
theorem C10_baselines_negated (rows : List CsvRow) (prediction : List ℚ) :
    (∀ i j (hi : i < rows.length) (hj : j < rows.length),
        (rows.get ⟨i, hi⟩).PIM2 < (rows.get ⟨j, hj⟩).PIM2 →
          (pim2Scores rows).get ⟨j, by simpa [pim2Scores] using hj⟩ <
            (pim2Scores rows).get ⟨i, by simpa [pim2Scores] using hi⟩) ∧
    (∀ i j (hi : i < rows.length) (hj : j < rows.length),
        (rows.get ⟨i, hi⟩).PRISM3 < (rows.get ⟨j, hj⟩).PRISM3 →
          (prism3Scores rows).get ⟨j, by simpa [prism3Scores] using hj⟩ <
            (prism3Scores rows).get ⟨i, by simpa [prism3Scores] using hi⟩) ∧
    (∀ i j (hi : i < prediction.length) (hj : j < prediction.length),
        prediction.get ⟨i, hi⟩ < prediction.get ⟨j, hj⟩ →
          (rnnScores prediction).get ⟨i, hi⟩ <
            (rnnScores prediction).get ⟨j, hj⟩) ∧
    (notebook.filter Step.isRocCurve).map Step.negatedScores =
      [false, true, true] := by
  refine ⟨fun i j hi hj hlt => ?_, fun i j hi hj hlt => ?_,
    fun i j hi hj hlt => ?_, rfl⟩
  · simp only [pim2Scores, List.get_eq_getElem, List.getElem_map]
    simp only [List.get_eq_getElem] at hlt
    exact neg_lt_neg hlt
  · simp only [prism3Scores, List.get_eq_getElem, List.getElem_map]
    simp only [List.get_eq_getElem] at hlt
    exact neg_lt_neg hlt
  · simpa [rnnScores] using hlt

/-- Witness for C10: two CSV rows with raw PIM2 values `1 < 3`: after
negation the second row's score is below the first's. -/
theorem C10_baselines_negated_witness :
    ((⟨0, 1, 2⟩ : CsvRow).PIM2 < (⟨1, 3, 5⟩ : CsvRow).PIM2) ∧
    (pim2Scores [⟨0, 1, 2⟩, ⟨1, 3, 5⟩]).get ⟨1, by simp [pim2Scores]⟩ <
      (pim2Scores [⟨0, 1, 2⟩, ⟨1, 3, 5⟩]).get ⟨0, by simp [pim2Scores]⟩ := by
  refine ⟨by norm_num, ?_⟩
  exact (C10_baselines_negated [⟨0, 1, 2⟩, ⟨1, 3, 5⟩] []).1 0 1
    (by simp) (by simp) (by norm_num)

end PatientMortality
